import Mathlib

/-!
Shallow embedding of the gaze-data-collection repository
(`src/utils.py`, `src/main.py`) and verification of the frozen claims.

Modelling conventions:
* Python floats are modelled as rationals (`ℚ`); the literals `0.9`, `0.1`,
  `0.5` become `9/10`, `1/10`, `1/2`.
* `random.uniform`, `random.choice` and the wall clock are modelled as
  explicit parameters / traces: every random draw or `time.time()` value the
  code consumes is an input of the corresponding Lean function.
* An OpenCV image (a numpy array of shape `(rows, cols, 3)`) is modelled as a
  structure carrying its two dimensions and its pixel function; a pixel is a
  BGR triple of rationals.
* `cv2.circle` with thickness `-1` is modelled as the ideal filled disc;
  `cv2.putText` is modelled as stamping an abstract, translation-invariant
  glyph mask (a parameter of the development, since the rasterised glyph
  shape lives inside OpenCV) with the given colour at the given origin.
* Python `int()` truncation toward zero is `pyInt`.
-/

/-- A BGR pixel: a triple of rationals, one per colour channel
(so an image value carries exactly 3 channels, as in numpy shape `(·, ·, 3)`). -/
abbrev Color : Type := ℚ × ℚ × ℚ

/-- An image: `rows × cols` grid of pixels, as in a numpy array of shape
`(rows, cols, 3)`.  Pixel lookups outside the grid are junk values, never
relied upon. -/
structure Img where
  rows : ℕ
  cols : ℕ
  pix : ℕ → ℕ → Color

/-- Model of `np.zeros((r, c, 3), np.float32)`. -/
def Img.zeros (r c : ℕ) : Img := ⟨r, c, fun _ _ => (0, 0, 0)⟩

/-- Model of `cv2.flip(img, 1)`: horizontal flip (columns reversed). -/
def Img.hflip (img : Img) : Img :=
  ⟨img.rows, img.cols, fun r c => img.pix r (img.cols - 1 - c)⟩

/-- Model of `img.transpose((1, 0, 2))`: swap the row and column axes. -/
def Img.transposeAxes (img : Img) : Img :=
  ⟨img.cols, img.rows, fun r c => img.pix c r⟩

/-- Model of `img / 255`: divide every channel of every pixel by 255. -/
def Img.div255 (img : Img) : Img :=
  ⟨img.rows, img.cols, fun r c =>
    ((img.pix r c).1 / 255, (img.pix r c).2.1 / 255, (img.pix r c).2.2 / 255)⟩

/-- Python `int()`: truncation toward zero. -/
def pyInt (q : ℚ) : ℤ := if 0 ≤ q then ⌊q⌋ else -⌊-q⌋

/-- Model of `cv2.circle(img, center, radius, color, -1)`: paint the filled disc of the
given radius around `center` (an OpenCV point, i.e. `(x, y) = (col, row)`).
A non-negative radius paints every pixel at squared distance `≤ radius ^ 2`;
OpenCV rejects a negative radius, modelled as painting nothing. -/
def Img.circle (img : Img) (center : ℤ × ℤ) (radius : ℤ) (color : Color) : Img :=
  ⟨img.rows, img.cols, fun r c =>
    if 0 ≤ radius ∧ ((c : ℤ) - center.1) ^ 2 + ((r : ℤ) - center.2) ^ 2 ≤ radius ^ 2
    then color else img.pix r c⟩

/-- Model of `cv2.putText(img, target, origin, ...)`: stamp the glyph mask, translated
to `origin` (an OpenCV point `(x, y) = (col, row)`), in the given colour.
`mask dx dy` tells whether the glyph covers the pixel at offset `(dx, dy)`
from the text origin; the mask itself is OpenCV-internal and is a parameter. -/
def Img.putText (img : Img) (mask : ℤ → ℤ → Bool) (origin : ℤ × ℤ) (color : Color) : Img :=
  ⟨img.rows, img.cols, fun r c =>
    if mask ((c : ℤ) - origin.1) ((r : ℤ) - origin.2) then color else img.pix r c⟩

/-- The muted blue glyph colour `(17, 112, 170)` of the running animation. -/
def blueColor : Color := (17, 112, 170)

/-- The orange glyph colour `(252, 125, 11)` of the final frame. -/
def orangeColor : Color := (252, 125, 11)

/-- The neutral gray `(32, 32, 32)` of the filled disc. -/
def grayColor : Color := (32, 32, 32)

/-- Model of `class TargetOrientation(Enum)` with its key codes. -/
inductive TargetOrientation where
  | UP | DOWN | LEFT | RIGHT
deriving DecidableEq, Repr

/-- The key code bound to each orientation (`UP = 82, DOWN = 84, LEFT = 81,
RIGHT = 83`). -/
def TargetOrientation.value : TargetOrientation → ℕ
  | .UP => 82
  | .DOWN => 84
  | .LEFT => 81
  | .RIGHT => 83

/-- Code of `ord('q')`, the global quit key. -/
def quitKey : ℕ := 113

/-- The text origin computed by `write_text_on_image`:
`(center[0] - text_size[0] // 2, center[1] + text_size[1] // 2)`
(`textSize` is the `(width, height)` pair returned by `cv2.getTextSize`). -/
def textOrigin (textSize : ℕ × ℕ) (center : ℤ × ℤ) : ℤ × ℤ :=
  (center.1 - (textSize.1 / 2 : ℕ), center.2 + (textSize.2 / 2 : ℕ))

/-- Model of `write_text_on_image(center, circle_scale, img, target)` from
`src/utils.py`.  The random draw `random.uniform(0.1, 0.5)` is the explicit
parameter `t`; the glyph raster of `cv2.putText` is the parameter `mask`.
Returns the painted image and `end_animation_loop = circle_scale < t`
(the Python function mutates `img` in place and returns the flag; here the
image is passed and returned explicitly). -/
def write_text_on_image (mask : ℤ → ℤ → Bool) (textSize : ℕ × ℕ)
    (center : ℤ × ℤ) (circle_scale : ℚ) (img : Img) (t : ℚ) : Img × Bool :=
  let radius : ℤ := pyInt ((textSize.1 : ℚ) * 5 * circle_scale)
  let img1 := img.circle center radius grayColor
  let origin := textOrigin textSize center
  let endLoop : Bool := decide (circle_scale < t)
  let img2 := img1.putText mask origin (if endLoop then orangeColor else blueColor)
  (img2, endLoop)

/-- Model of `create_image(monitor_pixels, center, circle_scale, orientation, target)`
from `src/utils.py`.  `monitor_pixels = (width, height)`; the per-call random
draw of `write_text_on_image` is the explicit parameter `t`.  Returns the
normalised image (`img / 255`), `circle_scale * 0.9`, and the termination
flag. -/
def create_image (mask : ℤ → ℤ → Bool) (textSize : ℕ × ℕ)
    (monitor_pixels : ℕ × ℕ) (center : ℤ × ℤ) (circle_scale : ℚ)
    (orientation : TargetOrientation) (t : ℚ) : Img × ℚ × Bool :=
  let width := monitor_pixels.1
  let height := monitor_pixels.2
  if orientation = .LEFT ∨ orientation = .RIGHT then
    let img0 := Img.zeros height width
    let center1 := if orientation = .LEFT then ((width : ℤ) - center.1, center.2) else center
    let res := write_text_on_image mask textSize center1 circle_scale img0 t
    let img2 := if orientation = .LEFT then res.1.hflip else res.1
    (img2.div255, circle_scale * (9/10), res.2)
  else
    let img0 := Img.zeros width height
    let center1 : ℤ × ℤ := (center.2, center.1)
    let center2 := if orientation = .UP then ((height : ℤ) - center1.1, center1.2) else center1
    let res := write_text_on_image mask textSize center2 circle_scale img0 t
    let img2 := if orientation = .UP then res.1.hflip else res.1
    (img2.transposeAxes.div255, circle_scale * (9/10), res.2)

/-- Model of `get_random_position_on_screen(monitor_pixels)` from `src/utils.py`.
The two `random.uniform(0, 1)` draws are the explicit parameters `u`, `v`
(for arguments `(0, 1)` the library computes `0 + (1 - 0) * random()`, whose
range is `[0, 1)`).  Returns `(int(u * width), int(v * height))`. -/
def get_random_position_on_screen (monitor_pixels : ℕ × ℕ) (u v : ℚ) : ℤ × ℤ :=
  (pyInt (u * monitor_pixels.1), pyInt (v * monitor_pixels.2))

/-- A Python value that is either `None` or a `str`: the dynamic type of the
`file_name` component returned by `show_point_on_screen` as seen by
`main`'s `file_name is not None` check. -/
inductive PyVal where
  | none
  | str (s : String)
deriving DecidableEq, Repr

/-- Python's `x is not None` on a `PyVal`. -/
def PyVal.isNotNone : PyVal → Bool
  | .none => false
  | .str _ => true

/-- The f-string `f'{file_name}.jpg'` applied to the local variable
`file_name : Optional[str]` (Python prints `None` as the text `None`). -/
def pyJpgName : Option String → String
  | Option.none => "None.jpg"
  | Option.some s => s ++ ".jpg"

/-- Observable side effects of one trial, in program order. -/
inductive Event where
  | destroyAllWindows
  | sysExit
  | clearFrameBuffer
  | pullFrame
  | imwrite (path : String)
deriving DecidableEq, Repr

/-- One `waitKey(42)` polling tick of the 0.5-second capture window:
`checkTime` is the `time.time()` value read by the `while` condition just
before this tick, `key` the code `waitKey` returns, and `capTime` the
`time.time()` value read after a capture (consumed only on a match). -/
structure CaptureTick where
  checkTime : ℚ
  key : ℕ
  capTime : ℚ
deriving DecidableEq, Repr

/-- All the randomness / clock / keyboard input one call of
`show_point_on_screen` consumes: the two `random.uniform(0, 1)` draws for the
center, the `random.choice` of orientation, per animation frame the
`random.uniform(0.1, 0.5)` draw together with the codes returned by the ten
`waitKey(50)` polls, the `datetime.now()` timestamp string, the
`time.time()` read when the capture window opens, and the capture-window
polling ticks. -/
structure TrialInput where
  u : ℚ
  v : ℚ
  orientation : TargetOrientation
  frames : List (ℚ × List ℕ)
  timestamp : String
  startTime : ℚ
  ticks : List CaptureTick

/-- Result of the animation `while` loop: aborted by the quit key, finished
with `end_animation_loop = True`, or the supplied trace ran out of frames
(a modelling artifact: the real loop would consume further draws). -/
inductive AnimOutcome where
  | quit
  | finished
  | outOfTrace
deriving DecidableEq, Repr

/-- The `while not end_animation_loop` loop of `show_point_on_screen`
(src/utils.py lines 149-156).  Each iteration calls `create_image` with the
current `circle_scale` (consuming one threshold draw), then runs the ten
`waitKey(50)` polls: the quit key `q` anywhere among them exits the process;
otherwise the loop repeats with the returned smaller scale until the
returned flag is true. -/
def animLoop (mask : ℤ → ℤ → Bool) (textSize : ℕ × ℕ) (monitor_pixels : ℕ × ℕ)
    (center : ℤ × ℤ) (orientation : TargetOrientation) :
    ℚ → List (ℚ × List ℕ) → AnimOutcome
  | _, [] => .outOfTrace
  | circle_scale, (t, keys) :: rest =>
    let res := create_image mask textSize monitor_pixels center circle_scale orientation t
    if keys.any (fun k => k % 256 = quitKey) then .quit
    else if res.2.2 then .finished
    else animLoop mask textSize monitor_pixels center orientation res.2.1 rest

/-- The capture-window `while time.time() - start_time_color_change < 0.5`
loop (src/utils.py lines 162-167).  A tick whose clock reading has passed
the 0.5-second mark ends the window; a tick whose key code matches
`orientation.value` clears the webcam buffer, pulls one frame, writes it to
`path`, and records `time_till_capture`; any other tick (the quit key
included — the loop compares only against `orientation.value`) is ignored.
An exhausted tick list models the clock passing the 0.5-second mark. -/
def captureLoop (orientationValue : ℕ) (path : String) (startTime : ℚ) :
    List CaptureTick → Option ℚ × List Event
  | [] => (Option.none, [])
  | tick :: rest =>
    if tick.checkTime - startTime < 1/2 then
      if tick.key % 256 = orientationValue then
        (Option.some (tick.capTime - startTime),
          [.clearFrameBuffer, .pullFrame, .imwrite path])
      else captureLoop orientationValue path startTime rest
    else (Option.none, [])

/-- Result of one call of `show_point_on_screen`: the process exited (quit
key during animation polling, after `cv2.destroyAllWindows()`), or the
function returned `(file_name, center, time_till_capture)`, or the supplied
animation trace was too short (modelling artifact). -/
inductive RunResult where
  | exited (events : List Event)
  | returned (file_name : PyVal) (center : ℤ × ℤ) (time_till_capture : Option ℚ)
      (events : List Event)
  | outOfTrace
deriving DecidableEq, Repr

/-- Model of `show_point_on_screen(window_name, base_path, monitor_pixels, source)`
from `src/utils.py`.  The local `file_name` starts as `None` and is set to
the timestamp exactly when the animation loop finished (the `if
end_animation_loop` branch, which the loop's exit condition always makes
true on a normal exit); the returned first component is the f-string
`f'{file_name}.jpg'`. -/
def show_point_on_screen (mask : ℤ → ℤ → Bool) (textSize : ℕ × ℕ)
    (base_path : String) (monitor_pixels : ℕ × ℕ) (inp : TrialInput) : RunResult :=
  let center := get_random_position_on_screen monitor_pixels inp.u inp.v
  match animLoop mask textSize monitor_pixels center inp.orientation 1 inp.frames with
  | .outOfTrace => .outOfTrace
  | .quit => .exited [.destroyAllWindows, .sysExit]
  | .finished =>
    let localName : Option String := Option.some inp.timestamp
    let path := base_path ++ "/" ++ inp.timestamp ++ ".jpg"
    let res := captureLoop inp.orientation.value path inp.startTime inp.ticks
    .returned (.str (pyJpgName localName)) center res.1 res.2

/-- The persistence guard of `main`'s session loop (src/main.py line 32):
`if file_name is not None and time_till_capture is not None`. -/
def mainPersistGuard (file_name : PyVal) (time_till_capture : Option ℚ) : Bool :=
  file_name.isNotNone && time_till_capture.isSome

/-- Model of `get_monitor_dimensions()` from `src/utils.py`: returns the pair of
dimensions read from Gdk, or `(None, None)` when the `pgi` import fails.
The environment is the parameter `env` (`none` models the
`ModuleNotFoundError` path). -/
def get_monitor_dimensions (env : Option ((ℕ × ℕ) × (ℕ × ℕ))) :
    Option (ℕ × ℕ) × Option (ℕ × ℕ) :=
  match env with
  | Option.some (mm, px) => (Option.some mm, Option.some px)
  | Option.none => (Option.none, Option.none)

/-- Result of `main`'s configuration phase (src/main.py lines 20-23):
either the `ValueError` raised before the session loop, or the geometry the
session loop runs with (`sessionStarted` is the unique continuation into
the `while True` loop, so `configError` means the session loop never runs). -/
inductive MainResult where
  | configError
  | sessionStarted (monitor_mm monitor_pixels : ℕ × ℕ)
deriving DecidableEq, Repr

/-- The geometry-resolution prefix of `main(base_path, monitor_mm,
monitor_pixels)`: when either argument is `None` both are replaced by
`get_monitor_dimensions()`, and if either is still `None` a `ValueError`
aborts before the session loop starts. -/
def mainSetup (monitor_mm monitor_pixels : Option (ℕ × ℕ))
    (env : Option ((ℕ × ℕ) × (ℕ × ℕ))) : MainResult :=
  let resolved :=
    if monitor_mm = Option.none ∨ monitor_pixels = Option.none then
      get_monitor_dimensions env
    else (monitor_mm, monitor_pixels)
  match resolved with
  | (Option.some mm, Option.some px) => .sessionStarted mm px
  | _ => .configError

/-! ## Claims -/

/-- C4: for every `monitor_pixels = (W, H)` with `W > 0` and `H > 0` and every
pair of draws of `random.uniform(0, 1)` in its range `[0, 1)`, the point
returned by `get_random_position_on_screen` satisfies `0 ≤ x < W` and
`0 ≤ y < H`. -/
theorem C4_random_position_in_range (W H : ℕ) (u v : ℚ)
    (hW : 0 < W) (hH : 0 < H) (hu0 : 0 ≤ u) (hu1 : u < 1) (hv0 : 0 ≤ v) (hv1 : v < 1) :
    0 ≤ (get_random_position_on_screen (W, H) u v).1 ∧
    (get_random_position_on_screen (W, H) u v).1 < W ∧
    0 ≤ (get_random_position_on_screen (W, H) u v).2 ∧
    (get_random_position_on_screen (W, H) u v).2 < H := by
  have hxq : (0 : ℚ) ≤ u * W := mul_nonneg hu0 (by positivity)
  have hyq : (0 : ℚ) ≤ v * H := mul_nonneg hv0 (by positivity)
  have hWq : (0 : ℚ) < W := by exact_mod_cast hW
  have hHq : (0 : ℚ) < H := by exact_mod_cast hH
  have hux : u * W < W := by
    have := mul_lt_mul_of_pos_right hu1 hWq
    simpa using this
  have hvy : v * H < H := by
    have := mul_lt_mul_of_pos_right hv1 hHq
    simpa using this
  refine ⟨?_, ?_, ?_, ?_⟩
  · simp only [get_random_position_on_screen, pyInt, if_pos hxq]
    exact Int.floor_nonneg.mpr hxq
  · simp only [get_random_position_on_screen, pyInt, if_pos hxq]
    exact Int.floor_lt.mpr (by exact_mod_cast hux)
  · simp only [get_random_position_on_screen, pyInt, if_pos hyq]
    exact Int.floor_nonneg.mpr hyq
  · simp only [get_random_position_on_screen, pyInt, if_pos hyq]
    exact Int.floor_lt.mpr (by exact_mod_cast hvy)

/-- Witness for C4 at `(W, H) = (1920, 1080)`, `u = 1/2`, `v = 1/3`. -/
theorem C4_random_position_in_range_witness :
    0 ≤ (get_random_position_on_screen (1920, 1080) (1/2) (1/3)).1 ∧
    (get_random_position_on_screen (1920, 1080) (1/2) (1/3)).1 < 1920 ∧
    0 ≤ (get_random_position_on_screen (1920, 1080) (1/2) (1/3)).2 ∧
    (get_random_position_on_screen (1920, 1080) (1/2) (1/3)).2 < 1080 :=
  C4_random_position_in_range 1920 1080 (1/2) (1/3)
    (by norm_num) (by norm_num) (by norm_num) (by norm_num) (by norm_num) (by norm_num)

/-- C5: `create_image` consumes one fresh threshold draw `t` per call, the
termination flag it returns is exactly `circle_scale < t`, and the returned
next scale is `circle_scale * 0.9` regardless of termination. -/
theorem C5_render_step_scale_and_flag (mask : ℤ → ℤ → Bool) (textSize : ℕ × ℕ)
    (mp : ℕ × ℕ) (center : ℤ × ℤ) (s : ℚ) (o : TargetOrientation) (t : ℚ) :
    (create_image mask textSize mp center s o t).2.1 = s * (9/10) ∧
    ((create_image mask textSize mp center s o t).2.2 = true ↔ s < t) := by
  cases o <;> simp [create_image, write_text_on_image]

/-- C8: if neither override is supplied (or only one is) and the environment
cannot provide monitor geometry, `main` raises its `ValueError` before the
session loop; if both overrides are supplied, the session starts regardless
of the environment (the retrieval is not even attempted). -/
theorem C8_missing_geometry_aborts (mm px : Option (ℕ × ℕ))
    (env : Option ((ℕ × ℕ) × (ℕ × ℕ))) :
    (env = Option.none → (mm = Option.none ∨ px = Option.none) →
      mainSetup mm px env = .configError) ∧
    (∀ a b, mm = Option.some a → px = Option.some b →
      mainSetup mm px env = .sessionStarted a b) := by
  constructor
  · rintro rfl h
    simp [mainSetup, if_pos h, get_monitor_dimensions]
  · rintro a b rfl rfl
    simp [mainSetup]

/-- Witness for C8: no override and no environment yields the configuration
error; both overrides supplied with no environment starts the session. -/
theorem C8_missing_geometry_aborts_witness :
    mainSetup Option.none Option.none Option.none = .configError ∧
    mainSetup (Option.some (510, 290)) (Option.some (1920, 1080)) Option.none
      = .sessionStarted (510, 290) (1920, 1080) :=
  ⟨(C8_missing_geometry_aborts Option.none Option.none Option.none).1 rfl (Or.inl rfl),
   (C8_missing_geometry_aborts (Option.some (510, 290)) (Option.some (1920, 1080))
      Option.none).2 (510, 290) (1920, 1080) rfl rfl⟩

/-! ## Helper lemmas about the trial state machine -/

/-- The capture window writes a file exactly when it records a
`time_till_capture`. -/
theorem captureLoop_isSome_iff_imwrite (o : ℕ) (p : String) (s : ℚ)
    (ticks : List CaptureTick) :
    (captureLoop o p s ticks).1.isSome
      ↔ Event.imwrite p ∈ (captureLoop o p s ticks).2 := by
  induction ticks with
  | nil => simp [captureLoop]
  | cons tick rest ih =>
    rw [captureLoop]
    split_ifs with h1 h2
    · simp
    · exact ih
    · simp

/-- A capture-window run that records a `time_till_capture` performed exactly
the clear-buffer / pull-frame / write-file sequence, triggered by an
in-window tick whose key matches, and the recorded value is that tick's
post-capture clock reading minus the window-open reading. -/
theorem captureLoop_some_spec (o : ℕ) (p : String) (s : ℚ)
    (ticks : List CaptureTick) (τ : ℚ)
    (h : (captureLoop o p s ticks).1 = Option.some τ) :
    (captureLoop o p s ticks).2
      = [Event.clearFrameBuffer, Event.pullFrame, Event.imwrite p]
    ∧ ∃ tick ∈ ticks, tick.key % 256 = o ∧ tick.checkTime - s < 1/2
        ∧ τ = tick.capTime - s := by
  induction ticks with
  | nil => simp [captureLoop] at h
  | cons tick rest ih =>
    rw [captureLoop] at h ⊢
    split_ifs at h ⊢ with h1 h2
    · simp only [Option.some.injEq] at h
      exact ⟨rfl, tick, by simp, h2, h1, h.symm⟩
    · obtain ⟨he, t', ht', hk, hc, hτ⟩ := ih h
      exact ⟨he, t', List.mem_cons_of_mem _ ht', hk, hc, hτ⟩

/-- Whenever `show_point_on_screen` returns, the returned `file_name` is the
timestamp string with `.jpg` appended, the returned center is the sampled
one, and `time_till_capture` and the event log are those of the capture
window. -/
theorem show_point_returned_eq (mask : ℤ → ℤ → Bool) (textSize : ℕ × ℕ)
    (bp : String) (mp : ℕ × ℕ) (inp : TrialInput) (fn : PyVal) (c : ℤ × ℤ)
    (ttc : Option ℚ) (ev : List Event)
    (h : show_point_on_screen mask textSize bp mp inp = .returned fn c ttc ev) :
    fn = .str (inp.timestamp ++ ".jpg")
    ∧ c = get_random_position_on_screen mp inp.u inp.v
    ∧ ttc = (captureLoop inp.orientation.value (bp ++ "/" ++ inp.timestamp ++ ".jpg")
        inp.startTime inp.ticks).1
    ∧ ev = (captureLoop inp.orientation.value (bp ++ "/" ++ inp.timestamp ++ ".jpg")
        inp.startTime inp.ticks).2 := by
  simp only [show_point_on_screen] at h
  rcases hA : animLoop mask textSize mp (get_random_position_on_screen mp inp.u inp.v)
      inp.orientation 1 inp.frames with _ | _ | _ <;> rw [hA] at h
  · exact RunResult.noConfusion h
  · simp only [pyJpgName, RunResult.returned.injEq] at h
    exact ⟨h.1.symm, h.2.1.symm, h.2.2.1.symm, h.2.2.2.symm⟩
  · exact RunResult.noConfusion h

/-! ## Concrete trial inputs -/

/-- A trial whose animation finishes after eight frames (thresholds all drawn
at the maximal `0.5`), with no key ever pressed: the capture window expires. -/
def expiredTrialInput : TrialInput where
  u := 0
  v := 0
  orientation := .RIGHT
  frames := List.replicate 8 (1/2, List.replicate 10 255)
  timestamp := "2024_01_01-00_00_00"
  startTime := 100
  ticks := [⟨1001/10, 255, 0⟩, ⟨1006/10, 255, 0⟩]

/-- Same animation, but the matching key (`RIGHT`, code 83) arrives 0.1 s into
the capture window and the post-capture clock reads 100.15. -/
def capturedTrialInput : TrialInput where
  u := 0
  v := 0
  orientation := .RIGHT
  frames := List.replicate 8 (1/2, List.replicate 10 255)
  timestamp := "2024_01_01-00_00_00"
  startTime := 100
  ticks := [⟨1001/10, 83, 2003/20⟩]

/-- Same animation, but the quit key `q` (code 113) is pressed 0.1 s into the
capture window (inside the 0.5 s window), and nothing else is pressed. -/
def quitCaptureTrialInput : TrialInput where
  u := 0
  v := 0
  orientation := .RIGHT
  frames := List.replicate 8 (1/2, List.replicate 10 255)
  timestamp := "2024_01_01-00_00_00"
  startTime := 100
  ticks := [⟨1001/10, 113, 0⟩, ⟨1006/10, 255, 0⟩]

/-- A trial whose very first animation polling tick sees the quit key. -/
def quitAnimTrialInput : TrialInput where
  u := 0
  v := 0
  orientation := .RIGHT
  frames := [(1/2, [113])]
  timestamp := "2024_01_01-00_00_00"
  startTime := 100
  ticks := []

/-- The eight-frame animation of the concrete inputs above terminates
normally: seven frames with `circle_scale ≥ 0.5` draw the threshold `0.5`,
and the eighth (scale `0.9 ^ 7 < 0.5`) ends the loop; no poll sees `q`. -/
theorem animLoop_eight_frames_finished :
    animLoop (fun _ _ => false) (0, 0) (8, 8) (0, 0) .RIGHT 1
      (List.replicate 8 (1/2, List.replicate 10 255)) = .finished := by
  norm_num [animLoop, create_image, write_text_on_image, List.replicate,
    List.any, quitKey]

/-- The sampled center of the concrete inputs above (draws `u = v = 0`). -/
theorem sampled_center_zero :
    get_random_position_on_screen (8, 8) 0 0 = (0, 0) := by
  norm_num [get_random_position_on_screen, pyInt]

/-- C1 fails on the code: in a trial whose capture window expires with no
matching key press, `time_till_capture` is `None` but `file_name` is the
non-null string `<timestamp>.jpg` — the two fields are not both absent. -/
theorem C1_counterexample_expired_keeps_filename :
    show_point_on_screen (fun _ _ => false) (0, 0) ("data") (8, 8) expiredTrialInput
      = .returned (.str ("2024_01_01-00_00_00.jpg")) (0, 0) Option.none []
    ∧ (PyVal.str ("2024_01_01-00_00_00.jpg")).isNotNone = true := by
  refine ⟨?_, rfl⟩
  simp only [show_point_on_screen, expiredTrialInput, sampled_center_zero,
    animLoop_eight_frames_finished]
  norm_num [captureLoop, pyJpgName, TargetOrientation.value]
  rfl

/-- Full evaluation of the expired concrete trial: the animation finishes,
no key matches, the window expires, and the function still returns the
timestamp-derived file name with `time_till_capture = None` and no events. -/
theorem show_point_expired_eval :
    show_point_on_screen (fun _ _ => false) (0, 0) ("data") (8, 8) expiredTrialInput
      = .returned (.str ("2024_01_01-00_00_00.jpg")) (0, 0) Option.none [] := by
  simp only [show_point_on_screen, expiredTrialInput, sampled_center_zero,
    animLoop_eight_frames_finished]
  norm_num [captureLoop, pyJpgName, TargetOrientation.value]
  rfl

/-- Full evaluation of the captured concrete trial: the matching key at
elapsed 0.1 s clears the buffer, pulls a frame, writes the timestamp-named
file and records `time_till_capture = 0.15` (the post-capture clock). -/
theorem show_point_captured_eval :
    show_point_on_screen (fun _ _ => false) (0, 0) ("data") (8, 8) capturedTrialInput
      = .returned (.str ("2024_01_01-00_00_00.jpg")) (0, 0) (Option.some (3/20))
          [.clearFrameBuffer, .pullFrame, .imwrite ("data/2024_01_01-00_00_00.jpg")] := by
  simp only [show_point_on_screen, capturedTrialInput, sampled_center_zero,
    animLoop_eight_frames_finished]
  norm_num [captureLoop, pyJpgName, TargetOrientation.value]
  constructor <;> rfl

/-- Full evaluation of the trial with the quit key pressed inside the
capture window: the quit key does not match `RIGHT`'s code, so the window
simply expires and the trial returns normally — no exit happens. -/
theorem show_point_quit_in_window_eval :
    show_point_on_screen (fun _ _ => false) (0, 0) ("data") (8, 8) quitCaptureTrialInput
      = .returned (.str ("2024_01_01-00_00_00.jpg")) (0, 0) Option.none [] := by
  simp only [show_point_on_screen, quitCaptureTrialInput, sampled_center_zero,
    animLoop_eight_frames_finished]
  norm_num [captureLoop, pyJpgName, TargetOrientation.value]
  rfl

/-- C1 (amended): `time_till_capture` is present exactly when a capture
(file write) happened, but `file_name` is always present — the non-null
string `<timestamp>.jpg` — even when the capture window expires with no
matching key press. -/
theorem C1_amended_capture_pairing (mask : ℤ → ℤ → Bool) (textSize : ℕ × ℕ)
    (bp : String) (mp : ℕ × ℕ) (inp : TrialInput) (fn : PyVal) (c : ℤ × ℤ)
    (ttc : Option ℚ) (ev : List Event)
    (h : show_point_on_screen mask textSize bp mp inp = .returned fn c ttc ev) :
    fn = .str (inp.timestamp ++ ".jpg")
    ∧ (ttc.isSome ↔ Event.imwrite (bp ++ "/" ++ inp.timestamp ++ ".jpg") ∈ ev) := by
  obtain ⟨h1, -, h3, h4⟩ := show_point_returned_eq mask textSize bp mp inp fn c ttc ev h
  subst h3
  subst h4
  exact ⟨h1, captureLoop_isSome_iff_imwrite _ _ _ _⟩

/-- Witness for the amended C1 at the captured concrete trial. -/
theorem C1_amended_capture_pairing_witness :
    PyVal.str ("2024_01_01-00_00_00.jpg") = .str (capturedTrialInput.timestamp ++ ".jpg")
    ∧ ((Option.some (3/20 : ℚ)).isSome
        ↔ Event.imwrite ("data" ++ "/" ++ capturedTrialInput.timestamp ++ ".jpg")
            ∈ [Event.clearFrameBuffer, Event.pullFrame,
                Event.imwrite ("data/2024_01_01-00_00_00.jpg")]) :=
  C1_amended_capture_pairing (fun _ _ => false) (0, 0) ("data") (8, 8)
    capturedTrialInput (.str ("2024_01_01-00_00_00.jpg")) (0, 0) (Option.some (3/20))
    [.clearFrameBuffer, .pullFrame, .imwrite ("data/2024_01_01-00_00_00.jpg")]
    show_point_captured_eval

/-- C9: for every completed trial the returned `file_name` is the non-null
string `<timestamp>.jpg` — also when the capture window expired and no image
was written — so `main`'s persistence guard `file_name is not None and
time_till_capture is not None` reduces to the `time_till_capture` check. -/
theorem C9_persist_guard_reduces (mask : ℤ → ℤ → Bool) (textSize : ℕ × ℕ)
    (bp : String) (mp : ℕ × ℕ) (inp : TrialInput) (fn : PyVal) (c : ℤ × ℤ)
    (ttc : Option ℚ) (ev : List Event)
    (h : show_point_on_screen mask textSize bp mp inp = .returned fn c ttc ev) :
    fn = .str (inp.timestamp ++ ".jpg")
    ∧ fn.isNotNone = true
    ∧ mainPersistGuard fn ttc = ttc.isSome := by
  obtain ⟨h1, -, -, -⟩ := show_point_returned_eq mask textSize bp mp inp fn c ttc ev h
  subst h1
  exact ⟨rfl, rfl, by simp [mainPersistGuard, PyVal.isNotNone]⟩

/-- Witness for C9 at the expired concrete trial: the guard is decided by
`time_till_capture` alone. -/
theorem C9_persist_guard_reduces_witness :
    PyVal.str ("2024_01_01-00_00_00.jpg") = .str (expiredTrialInput.timestamp ++ ".jpg")
    ∧ (PyVal.str ("2024_01_01-00_00_00.jpg")).isNotNone = true
    ∧ mainPersistGuard (.str ("2024_01_01-00_00_00.jpg")) Option.none
        = (Option.none : Option ℚ).isSome :=
  C9_persist_guard_reduces (fun _ _ => false) (0, 0) ("data") (8, 8)
    expiredTrialInput (.str ("2024_01_01-00_00_00.jpg")) (0, 0) Option.none []
    show_point_expired_eval

/-- C6: a trial that records a `time_till_capture` performed exactly the
sequence clear-frame-buffer, pull-one-frame, write the timestamp-named file
(one capture, in that order, nothing after), and the recorded value is the
post-capture clock reading minus the reading taken when the window opened,
for the first in-window tick whose key matches the orientation's code. -/
theorem C6_capture_effect_sequence (mask : ℤ → ℤ → Bool) (textSize : ℕ × ℕ)
    (bp : String) (mp : ℕ × ℕ) (inp : TrialInput) (fn : PyVal) (c : ℤ × ℤ)
    (τ : ℚ) (ev : List Event)
    (h : show_point_on_screen mask textSize bp mp inp
        = .returned fn c (Option.some τ) ev) :
    ev = [Event.clearFrameBuffer, Event.pullFrame,
      Event.imwrite (bp ++ "/" ++ inp.timestamp ++ ".jpg")]
    ∧ ∃ tick ∈ inp.ticks, tick.key % 256 = inp.orientation.value
        ∧ tick.checkTime - inp.startTime < 1/2
        ∧ τ = tick.capTime - inp.startTime := by
  obtain ⟨-, -, h3, h4⟩ := show_point_returned_eq mask textSize bp mp inp fn c
    (Option.some τ) ev h
  subst h4
  exact captureLoop_some_spec _ _ _ _ τ h3.symm

/-- Witness for C6 at the captured concrete trial. -/
theorem C6_capture_effect_sequence_witness :
    [Event.clearFrameBuffer, Event.pullFrame,
        Event.imwrite ("data/2024_01_01-00_00_00.jpg")]
      = [Event.clearFrameBuffer, Event.pullFrame,
          Event.imwrite ("data" ++ "/" ++ capturedTrialInput.timestamp ++ ".jpg")]
    ∧ ∃ tick ∈ capturedTrialInput.ticks,
        tick.key % 256 = capturedTrialInput.orientation.value
        ∧ tick.checkTime - capturedTrialInput.startTime < 1/2
        ∧ (3/20 : ℚ) = tick.capTime - capturedTrialInput.startTime :=
  C6_capture_effect_sequence (fun _ _ => false) (0, 0) ("data") (8, 8)
    capturedTrialInput (.str ("2024_01_01-00_00_00.jpg")) (0, 0) (3/20)
    [.clearFrameBuffer, .pullFrame, .imwrite ("data/2024_01_01-00_00_00.jpg")]
    show_point_captured_eval

/-- C2 fails on the code: the quit key pressed at an in-window polling tick
of the 0.5-second capture window does not terminate the process — the trial
continues and returns normally, because the capture-window poll compares the
key only against the orientation's code. -/
theorem C2_counterexample_quit_in_window_ignored :
    show_point_on_screen (fun _ _ => false) (0, 0) ("data") (8, 8) quitCaptureTrialInput
      = .returned (.str ("2024_01_01-00_00_00.jpg")) (0, 0) Option.none []
    ∧ (⟨1001/10, 113, 0⟩ : CaptureTick) ∈ quitCaptureTrialInput.ticks
    ∧ (113 : ℕ) % 256 = quitKey
    ∧ (1001/10 : ℚ) - quitCaptureTrialInput.startTime < 1/2 := by
  refine ⟨show_point_quit_in_window_eval, ?_, by norm_num [quitKey], ?_⟩
  · simp [quitCaptureTrialInput]
  · norm_num [quitCaptureTrialInput]

/-- C2 (amended): the quit key is polled only during the ANIMATING phase: a
trial exits the process (releasing the display first) exactly when an
animation polling tick sees the quit key, and a capture-window tick carrying
the quit key — which matches no orientation's code — is skipped exactly like
any other non-matching tick. -/
theorem C2_amended_quit_polled_only_while_animating (mask : ℤ → ℤ → Bool)
    (textSize : ℕ × ℕ) (bp : String) (mp : ℕ × ℕ) (inp : TrialInput) :
    (show_point_on_screen mask textSize bp mp inp
        = .exited [.destroyAllWindows, .sysExit]
      ↔ animLoop mask textSize mp (get_random_position_on_screen mp inp.u inp.v)
          inp.orientation 1 inp.frames = .quit)
    ∧ ∀ (o : TargetOrientation) (p : String) (s : ℚ) (tick : CaptureTick)
        (rest : List CaptureTick),
        tick.key % 256 = quitKey → tick.checkTime - s < 1/2 →
        captureLoop o.value p s (tick :: rest) = captureLoop o.value p s rest := by
  constructor
  · simp only [show_point_on_screen]
    rcases hA : animLoop mask textSize mp (get_random_position_on_screen mp inp.u inp.v)
        inp.orientation 1 inp.frames with _ | _ | _ <;> simp [hA]
  · intro o p s tick rest hk hc
    have hne : tick.key % 256 ≠ o.value := by
      rw [hk]; cases o <;> simp [TargetOrientation.value, quitKey]
    rw [captureLoop, if_pos hc, if_neg hne]

/-- Witness for the amended C2: a quit key at the first animation polling
tick exits the process, and a quit-key capture tick is skipped. -/
theorem C2_amended_quit_polled_only_while_animating_witness :
    show_point_on_screen (fun _ _ => false) (0, 0) ("data") (8, 8) quitAnimTrialInput
      = .exited [.destroyAllWindows, .sysExit]
    ∧ captureLoop TargetOrientation.RIGHT.value ("p") 100 [⟨1001/10, 113, 0⟩]
        = captureLoop TargetOrientation.RIGHT.value ("p") 100 [] := by
  constructor
  · exact (C2_amended_quit_polled_only_while_animating (fun _ _ => false) (0, 0)
      ("data") (8, 8) quitAnimTrialInput).1.mpr
      (by norm_num [animLoop, quitAnimTrialInput, quitKey, List.any])
  · exact (C2_amended_quit_polled_only_while_animating (fun _ _ => false) (0, 0)
      ("data") (8, 8) quitAnimTrialInput).2 .RIGHT ("p") 100 ⟨1001/10, 113, 0⟩ []
      (by norm_num [quitKey]) (by norm_num)

/-- C3 fails on the code: LEFT and RIGHT frames with the same logical center
and shrink factor are not horizontal mirror images of each other, even with
an empty glyph mask (which removes the glyph-mirroring asymmetry the claim
excuses).  At `(W, H) = (8, 1)`, center `(2, 0)`, radius 0: the LEFT path
draws at the mirrored column `W - x = 6` and then flips the frame, leaving
its gray pixel at column `W - 1 - (W - x) = x - 1 = 1`, whereas the
horizontally mirrored RIGHT frame has its gray pixel at column
`W - 1 - x = 5`; the frames differ at row 0, column 1. -/
theorem C3_counterexample_not_mirror_images :
    (create_image (fun _ _ => false) (0, 0) (8, 1) (2, 0) 1 .LEFT 1).1.pix 0 1
      ≠ (create_image (fun _ _ => false) (0, 0) (8, 1) (2, 0) 1 .RIGHT 1).1.pix 0 (8 - 1 - 1) := by
  simp only [create_image, write_text_on_image, Img.hflip, Img.div255, Img.zeros,
    Img.circle, Img.putText, pyInt, grayColor, blueColor, orangeColor, textOrigin,
    eq_self_iff_true, if_true, if_false,
    eq_false (by decide : TargetOrientation.RIGHT ≠ TargetOrientation.LEFT)]
  norm_num

/-- C3 (amended): LEFT mirrors the horizontal coordinate (`x' = W - x`)
before drawing and then flips the finished frame horizontally; consequently
the LEFT frame at center `(x, y)` equals, pixel for pixel, the horizontal
flip of the RIGHT frame rendered at the mirrored center `(W - x, y)` (the
same glyph mask flipped with the frame — this is the glyph mirroring), which
places the target near the caller-requested column (at `x - 1`), so LEFT and
RIGHT frames at the same center are near-identical rather than mirror
images; analogously the UP frame at `(x, y)` is the row-reversed DOWN frame
at the vertically mirrored center `(x, H - y)`.  The returned scale and
termination flag agree as well. -/
theorem C3_amended_flip_relations (mask : ℤ → ℤ → Bool) (textSize : ℕ × ℕ)
    (W H : ℕ) (x y : ℤ) (s t : ℚ) (r c : ℕ) :
    ((create_image mask textSize (W, H) (x, y) s .LEFT t).1.pix r c
      = (create_image mask textSize (W, H) ((W : ℤ) - x, y) s .RIGHT t).1.pix r (W - 1 - c))
    ∧ ((create_image mask textSize (W, H) (x, y) s .UP t).1.pix r c
      = (create_image mask textSize (W, H) (x, (H : ℤ) - y) s .DOWN t).1.pix (H - 1 - r) c)
    ∧ (create_image mask textSize (W, H) (x, y) s .LEFT t).2
      = (create_image mask textSize (W, H) ((W : ℤ) - x, y) s .RIGHT t).2 := by
  refine ⟨?_, ?_, ?_⟩ <;>
    simp [create_image, write_text_on_image, Img.hflip, Img.div255,
      Img.transposeAxes, Img.zeros, Img.circle, Img.putText]

/-- C7: given the termination draw outcome, the render step is fully
deterministic, and the glyph colour is the muted blue exactly on a
non-terminating draw and the orange exactly on a terminating draw, at the
same pixel locations (all pixels outside the glyph agree between the two). -/
theorem C7_color_switch_deterministic (mask : ℤ → ℤ → Bool) (textSize : ℕ × ℕ)
    (center : ℤ × ℤ) (s : ℚ) (img : Img) (t₁ t₂ : ℚ)
    (h₁ : ¬ s < t₁) (h₂ : s < t₂) :
    (write_text_on_image mask textSize center s img t₁).2 = false
    ∧ (write_text_on_image mask textSize center s img t₂).2 = true
    ∧ (∀ (r c : ℕ), mask ((c : ℤ) - (textOrigin textSize center).1)
          ((r : ℤ) - (textOrigin textSize center).2) = true →
        (write_text_on_image mask textSize center s img t₁).1.pix r c = blueColor
        ∧ (write_text_on_image mask textSize center s img t₂).1.pix r c = orangeColor)
    ∧ (∀ (r c : ℕ), mask ((c : ℤ) - (textOrigin textSize center).1)
          ((r : ℤ) - (textOrigin textSize center).2) = false →
        (write_text_on_image mask textSize center s img t₁).1.pix r c
          = (write_text_on_image mask textSize center s img t₂).1.pix r c)
    ∧ (∀ u, ¬ s < u →
        write_text_on_image mask textSize center s img u
          = write_text_on_image mask textSize center s img t₁)
    ∧ (∀ u, s < u →
        write_text_on_image mask textSize center s img u
          = write_text_on_image mask textSize center s img t₂) := by
  refine ⟨?_, ?_, ?_, ?_, ?_, ?_⟩
  · simp [write_text_on_image, h₁]
  · simp [write_text_on_image, h₂]
  · intro r c hm
    constructor <;> simp [write_text_on_image, Img.putText, h₁, h₂, hm]
  · intro r c hm
    simp [write_text_on_image, Img.putText, h₁, h₂, hm]
  · intro u hu
    simp [write_text_on_image, h₁, hu]
  · intro u hu
    simp [write_text_on_image, h₂, hu]

/-- A sample glyph raster covering exactly the pixel at the text origin. -/
def originDotMask : ℤ → ℤ → Bool := fun a b => decide (a = 0 ∧ b = 0)

/-- Witness for C7 at `textSize = (4, 6)`, `center = (10, 10)`,
`circle_scale = 0.3`, draws `t₁ = 0.2` (no termination) and `t₂ = 0.4`
(termination); the glyph pixel sits at row 13, column 8. -/
theorem C7_color_switch_deterministic_witness :
    (write_text_on_image originDotMask (4, 6) (10, 10) (3/10) (Img.zeros 20 20) (1/5)).2 = false
    ∧ (write_text_on_image originDotMask (4, 6) (10, 10) (3/10) (Img.zeros 20 20) (2/5)).2 = true
    ∧ (write_text_on_image originDotMask (4, 6) (10, 10) (3/10) (Img.zeros 20 20) (1/5)).1.pix 13 8
        = blueColor
    ∧ (write_text_on_image originDotMask (4, 6) (10, 10) (3/10) (Img.zeros 20 20) (2/5)).1.pix 13 8
        = orangeColor := by
  obtain ⟨hf, ht, hglyph, -, -, -⟩ :=
    C7_color_switch_deterministic originDotMask (4, 6) (10, 10) (3/10)
      (Img.zeros 20 20) (1/5) (2/5) (by norm_num) (by norm_num)
  obtain ⟨hb, ho⟩ := hglyph 13 8 (by decide)
  exact ⟨hf, ht, hb, ho⟩

/-- The frame built by `create_image` just before the final `img / 255`
normalisation (the drawing path of src/utils.py lines 71-93, including the
orientation-dependent flip and transpose, without the division of line 95). -/
def create_image_drawn (mask : ℤ → ℤ → Bool) (textSize : ℕ × ℕ)
    (monitor_pixels : ℕ × ℕ) (center : ℤ × ℤ) (circle_scale : ℚ)
    (orientation : TargetOrientation) (t : ℚ) : Img :=
  let width := monitor_pixels.1
  let height := monitor_pixels.2
  if orientation = .LEFT ∨ orientation = .RIGHT then
    let img0 := Img.zeros height width
    let center1 := if orientation = .LEFT then ((width : ℤ) - center.1, center.2) else center
    let res := write_text_on_image mask textSize center1 circle_scale img0 t
    if orientation = .LEFT then res.1.hflip else res.1
  else
    let img0 := Img.zeros width height
    let center1 : ℤ × ℤ := (center.2, center.1)
    let center2 := if orientation = .UP then ((height : ℤ) - center1.1, center1.2) else center1
    let res := write_text_on_image mask textSize center2 circle_scale img0 t
    let img2 := if orientation = .UP then res.1.hflip else res.1
    img2.transposeAxes

/-- C10: for every orientation and every `monitor_pixels = (W, H)`, the frame
returned by `create_image` has `H` rows and `W` columns (the UP/DOWN paths
build a `(W, H)`-shaped buffer and transpose it back), with three channels
per pixel by construction, and equals the drawn frame with every channel of
every pixel divided by 255. -/
theorem C10_frame_shape_and_normalisation (mask : ℤ → ℤ → Bool)
    (textSize : ℕ × ℕ) (W H : ℕ) (center : ℤ × ℤ) (s : ℚ)
    (o : TargetOrientation) (t : ℚ) :
    (create_image mask textSize (W, H) center s o t).1.rows = H
    ∧ (create_image mask textSize (W, H) center s o t).1.cols = W
    ∧ (create_image mask textSize (W, H) center s o t).1
        = (create_image_drawn mask textSize (W, H) center s o t).div255 := by
  cases o <;>
    simp [create_image, create_image_drawn, write_text_on_image, Img.zeros,
      Img.div255, Img.transposeAxes, Img.hflip, Img.circle, Img.putText]
